import Mathlib

/-!
A shallow embedding of the core of the `taskcat` repository
(`src/taskcat/taskcat.py` and `src/taskcat/utils.py`), together with
theorems settling the specification claims about it.

The embedding models:
* `TaskCat.genpassword` and the parameter-rewriting pass of
  `TaskCat.stackcreate` (the Parameter Materializer);
* `TaskCat.stackcheck` and `TaskCat.get_stackstatus` (the polling loop of
  the Stack Orchestrator);
* `ClientFactory.get` / `_create_session` / `_create_client` from
  `utils.py` (the Client Cache and its bounded retry loops);
* the auth-flag conflict check of `TaskCat.interface` and the driver
  ordering of `tcat.py`.

External collaborators (the `boto3` API, `random.sample`'s PRNG, the
network) are modelled by oracles: a `pick : Nat → Nat` index oracle for the
PRNG, a `describe : Nat → Nat → DescribeResult` oracle for
`describe_stacks`, and `make : Nat → Option _` oracles for session/client
construction attempts.  Python exceptions are modelled with `Option`.
-/

namespace Taskcat

/-! ## Parameter Materializer: `TaskCat.genpassword` (taskcat.py 248-252)

`random.sample(map(chr, range(48, 57) + range(65, 90) + range(97, 120)), plen)`
samples `plen` distinct elements from the listed character population.
-/

/-- The population `map(chr, range(48, 57) + range(65, 90) + range(97, 120))`
built in `TaskCat.genpassword`: character codes 48-56, 65-89 and 97-119
(Python `range` excludes its upper bound). -/
def passwordPopulation : List Char :=
  ((List.range' 48 9) ++ (List.range' 65 25) ++ (List.range' 97 23)).map Char.ofNat

/-- Model of `random.sample(pop, k)`: selection without replacement, driven by the
abstract PRNG oracle `pick` (each draw takes index `pick _ % remaining` of the
remaining population).  Returns `none` when the requested size exceeds the
population size, modelling the `ValueError` raised by `random.sample`. -/
def randomSample (pick : Nat → Nat) : List Char → Nat → Option (List Char)
  | _, 0 => some []
  | pop, k + 1 =>
    if h : 0 < pop.length then
      let i : Fin pop.length := ⟨pick (k + 1) % pop.length, Nat.mod_lt _ h⟩
      (randomSample pick (pop.eraseIdx i.val) k).map (fun rest => pop.get i :: rest)
    else none

/-- Model of `TaskCat.genpassword`: `''.join(random.sample(population, plen))`. -/
def genpassword (pick : Nat → Nat) (passlength : Nat) : Option String :=
  (randomSample pick passwordPopulation passlength).map (fun cs => String.mk cs)

/-! ## The generation-token pattern `\$\[\w+_genpass_\d{1,2}]`
searched by `re.search` in `TaskCat.stackcreate` (taskcat.py 327-328). -/

/-- The class `\w` of Python 2 `re` without `re.UNICODE`: `[A-Za-z0-9_]`. -/
def isWordChar (c : Char) : Bool :=
  ('a' ≤ c && c ≤ 'z') || ('A' ≤ c && c ≤ 'Z') || ('0' ≤ c && c ≤ '9') || c == '_'

/-- The literal middle part `_genpass_` of the token pattern. -/
def genpassMid : List Char := "_genpass_".toList

/-- The suffix `\d{1,2}]`: one or two digits followed by a literal `]`
(two digits are preferred, with backtracking to one). -/
def digitsThenBracket (l : List Char) : Bool :=
  match l with
  | d :: ']' :: _ => d.isDigit
  | d :: d' :: ']' :: _ => d.isDigit && d'.isDigit
  | _ => false

/-- Match of `\w+_genpass_\d{1,2}]` at the start of `body` (i.e. just after a
`$[` occurrence): some nonempty prefix of `j` word characters, then
`_genpass_`, then one or two digits and `]`. -/
def tokenTail (body : List Char) : Bool :=
  (List.range body.length).any (fun j =>
    (body.take (j + 1)).all isWordChar &&
    genpassMid.isPrefixOf (body.drop (j + 1)) &&
    digitsThenBracket (body.drop (j + 1 + genpassMid.length)))

/-- After a `$`, the pattern requires a literal `[` and then the token tail. -/
def tokenAfterDollar : List Char → Bool
  | '[' :: body => tokenTail body
  | _ => false

/-- Search as in `re.search`: the pattern may match starting at any position. -/
def searchGenpassToken : List Char → Bool
  | [] => false
  | c :: rest => (c == '$' && tokenAfterDollar rest) || searchGenpassToken rest

/-- Model of `re.search('\$\[\w+_genpass_\d{1,2}]', value)` in `TaskCat.stackcreate`. -/
def matchesGenpassToken (v : String) : Bool :=
  searchGenpassToken v.toList

/-- One `{ParameterKey, ParameterValue}` object of the parameter document. -/
structure ParamEntry where
  ParameterKey : String
  ParameterValue : String
deriving DecidableEq, Repr

/-- Model of `int(re.sub('[^0-9]', '', value))`: the length requested by the token
(this quantity is computed and immediately discarded by the source: line 329
of taskcat.py calls `re.sub` without using its result). -/
def requestedLength (v : String) : Nat :=
  (v.toList.filter Char.isDigit).foldl (fun acc c => acc * 10 + (c.toNat - 48)) 0

/-- One iteration of the `for keys in parmdict` body in `TaskCat.stackcreate`:
if the current value matches the token pattern, the whole value is replaced by
`self.genpassword(8)` — the literal constant 8, not the requested length. -/
def genpassStep (pick : Nat → Nat) (v : String) : Option String :=
  if matchesGenpassToken v then genpassword pick 8 else some v

/-- The `for keys in parmdict` loop runs once per key of the entry
(`ParameterKey` and `ParameterValue`, two keys), re-testing the current value
on each iteration. -/
def materializeValue (pick : Nat → Nat) (v : String) : Option String :=
  (genpassStep pick v).bind (genpassStep pick)

/-- Materialization of one parameter entry: only `ParameterValue` is ever
assigned to. -/
def materializeEntry (pick : Nat → Nat) (e : ParamEntry) : Option ParamEntry :=
  (materializeValue pick e.ParameterValue).map
    (fun v => { e with ParameterValue := v })

/-- The parameter-rewriting pass of `TaskCat.stackcreate` over the loaded
document (`for parmdict in s_parms`), in document order; a raised error
propagates. -/
def stackcreateParams (pick : Nat → Nat) : List ParamEntry → Option (List ParamEntry)
  | [] => some []
  | e :: rest =>
    match materializeEntry pick e, stackcreateParams pick rest with
    | some e', some rest' => some (e' :: rest')
    | _, _ => none

/-! ## Stack Orchestrator: `TaskCat.stackcheck` (taskcat.py 421-452) and
`TaskCat.get_stackstatus` (taskcat.py 407-419). -/

/-- Outcome of one `describe_stacks` call for a tracked stack: the status
string of the returned stack, or any raised exception. -/
inductive DescribeResult where
  | ok (status : String)
  | err
deriving DecidableEq, Repr

/-- The four fields appended to `test_info` by `TaskCat.stackcheck`:
`[stack_name, region, status, active]`. -/
structure StackQuery where
  name : String
  region : String
  status : String
  active : Nat
deriving DecidableEq, Repr

/-- Model of `TaskCat.stackcheck`, after the regex extraction of `stack_name` and
`region` from the stack id (the extraction itself passes both through
unchanged into `test_info` and is not modelled further): a successful
describe is classified 1 exactly for the two statuses `CREATE_IN_PROGRESS`
and `DELETE_IN_PROGRESS`; any raised exception is mapped to the terminal
pseudo-status `USER_DELETED` with count 0. -/
def stackcheck (stack_name region : String) (res : DescribeResult) : StackQuery :=
  match res with
  | .ok st =>
    { name := stack_name, region := region, status := st,
      active := if st = "CREATE_IN_PROGRESS" ∨ st = "DELETE_IN_PROGRESS" then 1 else 0 }
  | .err =>
    { name := stack_name, region := region, status := "USER_DELETED", active := 0 }

/-- The in-flight contribution of a describe outcome (field 3 of
`stackcheck`'s result, independent of name and region). -/
def activeCount (res : DescribeResult) : Nat :=
  match res with
  | .ok st => if st = "CREATE_IN_PROGRESS" ∨ st = "DELETE_IN_PROGRESS" then 1 else 0
  | .err => 0

/-- One pass of the `for stack in stackids` body in `TaskCat.get_stackstatus`.
The accumulator carries `(current_active_tests, active_tests)`:
`current_active_tests` is increased by each stack's contribution and
`active_tests` is overwritten with it inside the loop body — so an empty
tracking list leaves `active_tests` at its previous value `active0`.
`describe i iter` is the result of the describe call for stack `i` during
iteration `iter`. -/
def pollSweep (describe : Nat → Nat → DescribeResult)
    (stackids : List (String × String)) (iter : Nat) (active0 : Nat) : Nat :=
  (stackids.enum.foldl
    (fun acc p =>
      let cur := acc.1 + (stackcheck p.2.1 p.2.2 (describe p.1 iter)).active
      (cur, cur))
    (0, active0)).2

/-- The total in-flight count of one sweep. -/
def sweepSum (describe : Nat → Nat → DescribeResult)
    (stackids : List (String × String)) (iter : Nat) : Nat :=
  (stackids.enum.map (fun p => (stackcheck p.2.1 p.2.2 (describe p.1 iter)).active)).sum

/-- The `while (active_tests > 0)` loop of `TaskCat.get_stackstatus`,
unfolded for at most `fuel` iterations: returns the number of iterations
performed on exit, or `none` when the loop is still running after `fuel`
iterations. -/
def getStackstatusAux (describe : Nat → Nat → DescribeResult)
    (stackids : List (String × String)) : Nat → Nat → Nat → Option Nat
  | fuel, iter, active =>
    if active > 0 then
      match fuel with
      | 0 => none
      | fuel' + 1 =>
        getStackstatusAux describe stackids fuel' (iter + 1)
          (pollSweep describe stackids iter active)
    else some iter

/-- Model of `TaskCat.get_stackstatus`: `active_tests` starts at 1 and the loop spins
until it reaches 0. -/
def get_stackstatus (describe : Nat → Nat → DescribeResult)
    (stackids : List (String × String)) (fuel : Nat) : Option Nat :=
  getStackstatusAux describe stackids fuel 0 1

/-- Containment of `IN_PROGRESS` in a status string (the classification the
spec ascribes to the source). -/
def hasSubstr (needle : List Char) : List Char → Bool
  | [] => needle.isEmpty
  | c :: rest => needle.isPrefixOf (c :: rest) || hasSubstr needle rest

/-- Whether a status string contains `"IN_PROGRESS"` as a substring. -/
def containsInProgress (s : String) : Bool :=
  hasSubstr "IN_PROGRESS".toList s.toList

/-! ## Client Cache: `ClientFactory` (utils.py 10-154)

The nested dict `self._clients` maps role → region → key, where the key
level holds both the literal key `'session'` (a session object) and service
names (each a dict sig-version → client).  Sessions and clients are
identified by a fresh-id counter so that "same cached instance" is
expressible.  Construction never fails in this model; the bounded-retry
shell around construction is modelled separately below. -/

/-- A `boto3.session.Session`: its identity and the explicit access key it
was constructed with, if any (`none` models execution-role credentials). -/
structure Session where
  sid : Nat
  access_key : Option String
deriving DecidableEq, Repr

/-- A boto3 client: its identity and the session it was built from. -/
structure BotoClient where
  cid : Nat
  session_sid : Nat
  service : String
  sig : String
deriving DecidableEq, Repr

/-- Python dict lookup over a string-keyed association list. -/
def dlookup {α : Type} (d : List (String × α)) (k : String) : Option α :=
  (d.find? (fun p => p.1 == k)).map (fun p => p.2)

/-- Python `k in d.keys()`. -/
def dhas {α : Type} (d : List (String × α)) (k : String) : Bool :=
  d.any (fun p => p.1 == k)

/-- Python dict assignment `d[k] = v`: replace in place, or append. -/
def dinsert {α : Type} (d : List (String × α)) (k : String) (v : α) : List (String × α) :=
  if dhas d k then d.map (fun p => if p.1 == k then (k, v) else p) else d ++ [(k, v)]

/-- A value at the key level of `self._clients[role][region]`: either the
session object stored under `'session'`, or a sig-version → client dict
stored under a service name. -/
inductive RegionVal where
  | sess (s : Session)
  | svc (m : List (String × BotoClient))
deriving DecidableEq, Repr

/-- The `ClientFactory` state: `self._clients` plus a fresh-id counter
standing for object identity of newly constructed sessions/clients. -/
structure FactoryState where
  clients : List (String × List (String × List (String × RegionVal)))
  fresh : Nat
deriving DecidableEq, Repr

/-- Initial state `self._clients = {"default_role": {}}` from `ClientFactory.__init__`. -/
def initialFactoryState : FactoryState :=
  { clients := [("default_role", [])], fresh := 0 }

/-- Model of `'s3v4' if s3v4 else 'default_sig_version'`. -/
def sigKey (s3v4 : Bool) : String :=
  if s3v4 then "s3v4" else "default_sig_version"

/-- The session cached for `(role, region)`, when present. -/
def sessionAt (st : FactoryState) (role region : String) : Option Session :=
  match dlookup st.clients role with
  | none => none
  | some regions =>
    match dlookup regions region with
    | none => none
    | some rd =>
      match dlookup rd "session" with
      | some (RegionVal.sess s) => some s
      | _ => none

/-- The client cached for `(role, region, service, sig)`, when present
(the lookup `self._clients[role][region][service][s3v4]` of the `try`
block of `ClientFactory.get`). -/
def clientAt (st : FactoryState) (role region service sig : String) : Option BotoClient :=
  match dlookup st.clients role with
  | none => none
  | some regions =>
    match dlookup regions region with
    | none => none
    | some rd =>
      match dlookup rd service with
      | some (RegionVal.svc m) => dlookup m sig
      | _ => none

/-- Model of `session.get_credentials().access_key`: the key the session resolves to —
the explicit one it was built with, or the ambient execution-role key. -/
def sessionAccessKey (s : Session) : String :=
  s.access_key.getD "AMBIENT_ACCESS_KEY"

/-- Model of `ClientFactory._create_session` (construction itself, retry shell aside):
an explicit-credential session requires all three of access key, secret key
and session token (`if access_key and secret_key and session_token`),
otherwise a default session on ambient credentials is built. -/
def create_session (st : FactoryState) (access_key secret_key session_token : Option String) :
    FactoryState × Session :=
  let creds : Option String :=
    match access_key, secret_key, session_token with
    | some a, some _, some _ => some a
    | _, _, _ => none
  ({ st with fresh := st.fresh + 1 }, { sid := st.fresh, access_key := creds })

/-- Model of `ClientFactory._create_client` (construction itself, retry shell aside):
builds a client from the session stored at `self._clients[role][region]`;
`none` models the uncaught error raised when that session is absent. -/
def create_client (st : FactoryState) (role region service sig : String) :
    Option (FactoryState × BotoClient) :=
  match sessionAt st role region with
  | none => none
  | some s =>
    some ({ st with fresh := st.fresh + 1 },
          { cid := st.fresh, session_sid := s.sid, service := service, sig := sig })

/-- Assignment `self._clients[role][region][key] = v` (requires the `role` and `region`
levels to exist, as in Python; guaranteed in the flow below). -/
def setRegionKey (st : FactoryState) (role region key : String) (v : RegionVal) :
    Option FactoryState :=
  match dlookup st.clients role with
  | none => none
  | some regions =>
    match dlookup regions region with
    | none => none
    | some rd =>
      some { st with clients := dinsert st.clients role (dinsert regions region (dinsert rd key v)) }

/-- Assignment `self._clients[role][region][service][s3v4] = c` (requires the service
key to hold a sig-version dict, else the Python assignment raises). -/
def setClient (st : FactoryState) (role region service sig : String) (c : BotoClient) :
    Option FactoryState :=
  match dlookup st.clients role with
  | none => none
  | some regions =>
    match dlookup regions region with
    | none => none
    | some rd =>
      match dlookup rd service with
      | some (RegionVal.svc m) =>
        let clients' := dinsert st.clients role
          (dinsert regions region (dinsert rd service (RegionVal.svc (dinsert m sig c))))
        some { st with clients := clients' }
      | _ => none

/-- The `except KeyError` branch of `ClientFactory.get` (utils.py 80-92).
Note two faithful oddities of the source: the third membership test checks
`service not in self._clients[role].keys()` — the *role* level, whose keys
are regions — and a cached session is reused whenever the `'session'` key is
already present, even when the `KeyError` was raised because the supplied
credentials differ from the session's. -/
def getMiss (st : FactoryState) (service region role : String)
    (access_key secret_key session_token : Option String) (sig : String) :
    Option (FactoryState × BotoClient) :=
  let st1 := if dhas st.clients role then st
             else { st with clients := dinsert st.clients role [] }
  let regions1 := (dlookup st1.clients role).getD []
  let st2 := if dhas regions1 region then st1
             else { st1 with clients := dinsert st1.clients role (dinsert regions1 region []) }
  let regions2 := (dlookup st2.clients role).getD []
  let rd2 := (dlookup regions2 region).getD []
  let svcClients := dinsert st2.clients role
    (dinsert regions2 region (dinsert rd2 service (RegionVal.svc [])))
  let st3 := if dhas regions2 service then st2
             else { st2 with clients := svcClients }
  let st4? : Option FactoryState :=
    let regions3 := (dlookup st3.clients role).getD []
    let rd3 := (dlookup regions3 region).getD []
    if dhas rd3 "session" then some st3
    else
      let p := create_session st3 access_key secret_key session_token
      setRegionKey p.1 role region "session" (RegionVal.sess p.2)
  match st4? with
  | none => none
  | some st4 =>
    match create_client st4 role region service sig with
    | none => none
    | some (st5, c) =>
      match setClient st5 role region service sig c with
      | none => none
      | some st6 => some (st6, c)

/-- Model of `ClientFactory.get` (utils.py 51-92): return the cached client when the
exact `(role, region, service, sig)` entry exists and, if an access key was
supplied, it equals the cached session's; otherwise fall to the
`except KeyError` branch. -/
def ClientFactory.get (st : FactoryState) (service region role : String)
    (access_key secret_key session_token : Option String) (s3v4 : Bool) :
    Option (FactoryState × BotoClient) :=
  let sig := sigKey s3v4
  match clientAt st role region service sig with
  | some client =>
    match access_key with
    | none => some (st, client)
    | some ak =>
      match sessionAt st role region with
      | some s =>
        if sessionAccessKey s == ak then some (st, client)
        else getMiss st service region role access_key secret_key session_token sig
      | none => getMiss st service region role access_key secret_key session_token sig
  | none => getMiss st service region role access_key secret_key session_token sig

/-- Two consecutive `get` calls for the same `(service, region, role, sig)`
with explicit credentials whose access key changes between the calls:
the scenario of the credential-invalidation clause. -/
def twoGetsCredChange : Option (FactoryState × BotoClient × BotoClient) :=
  match ClientFactory.get initialFactoryState "s3" "us-east-1" "default_role"
      (some "AKIA1") (some "SECRET1") (some "TOKEN1") false with
  | none => none
  | some (st1, c1) =>
    match ClientFactory.get st1 "s3" "us-east-1" "default_role"
        (some "AKIA2") (some "SECRET2") (some "TOKEN2") false with
    | none => none
    | some (st2, c2) => some (st2, c1, c2)

/-- Two consecutive `get` calls with identical arguments and no credentials:
the idempotence scenario. -/
def twoGetsNoCreds : Option (FactoryState × BotoClient × BotoClient) :=
  match ClientFactory.get initialFactoryState "s3" "us-east-1" "default_role"
      none none none false with
  | none => none
  | some (st1, c1) =>
    match ClientFactory.get st1 "s3" "us-east-1" "default_role"
        none none none false with
    | none => none
    | some (st2, c2) => some (st2, c1, c2)

/-! ## The bounded retry loops of `ClientFactory._create_session` and
`ClientFactory._create_client` (utils.py 103-124 and 135-154).  Both wrap
construction in the identical shell: `retry = 0; max_retries = 4;
while not done: try ... except: retry += 1; if retry >= max_retries: raise;
sleep(5*(retry**2))`. -/

/-- The retry shell, generic in what is being constructed.  `make k` is the
outcome of the (0-indexed) `k`-th construction attempt.  Returns the number
of attempts made, the list of sleep durations performed (in order), and the
constructed value (`none` when the final failure re-raises).  `fuel` bounds
the unfolding; `4` suffices since `max_retries = 4`. -/
def retryConstruct {α : Type} (make : Nat → Option α) : Nat → Nat → Nat × List Nat × Option α
  | retry, 0 => (retry, [], none)
  | retry, fuel + 1 =>
    match make retry with
    | some v => (retry + 1, [], some v)
    | none =>
      let r := retry + 1
      if r ≥ 4 then (r, [], none)
      else
        let rec' := retryConstruct make r fuel
        (rec'.1, 5 * r ^ 2 :: rec'.2.1, rec'.2.2)

/-- The retry behaviour of `ClientFactory._create_session`. -/
def create_session_with_retries (make : Nat → Option Session) :
    Nat × List Nat × Option Session :=
  retryConstruct make 0 4

/-- The retry behaviour of `ClientFactory._create_client`. -/
def create_client_with_retries (make : Nat → Option BotoClient) :
    Nat × List Nat × Option BotoClient :=
  retryConstruct make 0 4

/-! ## CLI surface: `TaskCat.interface` (taskcat.py 583-642) and the driver
ordering of `tcat.py` (interface, then `set_config`, then `aws_api_init`
whose `sts.get_caller_identity()` is the first network call). -/

/-- The parsed command-line flags relevant to the auth-conflict check, plus
whether the process was invoked with no arguments at all
(`len(sys.argv) == 1`). -/
structure CliArgs where
  config_yml : Option String
  boto_profile : Option String
  aws_access_key : Option String
  aws_secret_key : Option String
  example_yaml : Bool
  verbose : Bool
  no_cli_arguments : Bool
deriving DecidableEq, Repr

/-- Observable process events, in order. -/
inductive RunEvent where
  | printedHelp
  | printedExampleYaml
  | networkCall (api : String)
  | exited (code : Nat)
deriving DecidableEq, Repr

/-- The event sequence of `TaskCat.interface` after argument parsing: bare
invocation prints help and exits 0; `--example_yaml` prints the template and
exits 0; then the auth-flag conflict check calls `parser.error`, which prints
a usage error and exits with status 2. -/
def interfaceEvents (a : CliArgs) : List RunEvent :=
  if a.no_cli_arguments then [RunEvent.printedHelp, RunEvent.exited 0]
  else if a.example_yaml then [RunEvent.printedExampleYaml, RunEvent.exited 0]
  else if a.boto_profile.isSome ∧ (a.aws_access_key.isSome ∨ a.aws_secret_key.isSome) then
    [RunEvent.exited 2]
  else []

/-- Whether an event sequence already terminated the process. -/
def exitsRun (evs : List RunEvent) : Bool :=
  evs.any (fun e => match e with | RunEvent.exited _ => true | _ => false)

/-- The driver `tcat.py`: `interface` runs first; if it did not exit, the
next effectful step is `aws_api_init`, whose STS identity check is the first
network call of the process (further events elided). -/
def mainEvents (a : CliArgs) : List RunEvent :=
  if exitsRun (interfaceEvents a) then interfaceEvents a
  else interfaceEvents a ++ [RunEvent.networkCall "sts:GetCallerIdentity"]

/-! ## Lemmas about `random.sample` and `genpassword` -/

theorem randomSample_some_length (pick : Nat → Nat) :
    ∀ (k : Nat) (pop l : List Char), randomSample pick pop k = some l → l.length = k := by
  intro k
  induction k with
  | zero =>
    intro pop l h
    simp only [randomSample, Option.some.injEq] at h
    simp [← h]
  | succ k ih =>
    intro pop l h
    rw [randomSample] at h
    split at h
    · rw [Option.map_eq_some'] at h
      obtain ⟨rest, hrest, hl⟩ := h
      simp [← hl, ih _ _ hrest]
    · exact absurd h (by simp)

theorem randomSample_isSome (pick : Nat → Nat) :
    ∀ (k : Nat) (pop : List Char), k ≤ pop.length →
      ∃ l, randomSample pick pop k = some l := by
  intro k
  induction k with
  | zero => intro pop _; exact ⟨[], by simp [randomSample]⟩
  | succ k ih =>
    intro pop hk
    have hpos : 0 < pop.length := Nat.lt_of_lt_of_le (Nat.succ_pos k) hk
    have hidx : pick (k + 1) % pop.length < pop.length := Nat.mod_lt _ hpos
    have hlen : (pop.eraseIdx (pick (k + 1) % pop.length)).length + 1 = pop.length :=
      List.length_eraseIdx_add_one hidx
    obtain ⟨rest, hrest⟩ := ih (pop.eraseIdx (pick (k + 1) % pop.length)) (by omega)
    refine ⟨pop.get ⟨pick (k + 1) % pop.length, hidx⟩ :: rest, ?_⟩
    rw [randomSample]
    simp [hpos, hrest]

theorem randomSample_none (pick : Nat → Nat) :
    ∀ (k : Nat) (pop : List Char), pop.length < k → randomSample pick pop k = none := by
  intro k
  induction k with
  | zero => intro pop h; omega
  | succ k ih =>
    intro pop hk
    rw [randomSample]
    split
    · rename_i hpos
      have hidx : pick (k + 1) % pop.length < pop.length := Nat.mod_lt _ hpos
      have hlen : (pop.eraseIdx (pick (k + 1) % pop.length)).length + 1 = pop.length :=
        List.length_eraseIdx_add_one hidx
      have hnone := ih (pop.eraseIdx (pick (k + 1) % pop.length)) (by omega)
      simp [hnone]
    · rfl

theorem randomSample_mem (pick : Nat → Nat) :
    ∀ (k : Nat) (pop l : List Char), randomSample pick pop k = some l →
      ∀ c ∈ l, c ∈ pop := by
  intro k
  induction k with
  | zero =>
    intro pop l h
    simp only [randomSample, Option.some.injEq] at h
    simp [← h]
  | succ k ih =>
    intro pop l h
    rw [randomSample] at h
    split at h
    · rename_i hpos
      rw [Option.map_eq_some'] at h
      obtain ⟨rest, hrest, hl⟩ := h
      intro c hc
      rw [← hl] at hc
      rcases List.mem_cons.mp hc with hc | hc
      · rw [hc]; exact pop.get_mem _ _
      · exact (List.eraseIdx_sublist pop _).subset (ih _ _ hrest c hc)
    · exact absurd h (by simp)

theorem randomSample_nodup (pick : Nat → Nat) :
    ∀ (k : Nat) (pop l : List Char), pop.Nodup → randomSample pick pop k = some l →
      l.Nodup := by
  intro k
  induction k with
  | zero =>
    intro pop l _ h
    simp only [randomSample, Option.some.injEq] at h
    simp [← h]
  | succ k ih =>
    intro pop l hnd h
    rw [randomSample] at h
    split at h
    · rename_i hpos
      have hidx : pick (k + 1) % pop.length < pop.length := Nat.mod_lt _ hpos
      rw [Option.map_eq_some'] at h
      obtain ⟨rest, hrest, hl⟩ := h
      rw [← hl]
      refine List.nodup_cons.mpr ⟨?_, ih _ _ ((List.eraseIdx_sublist pop _).nodup hnd) hrest⟩
      intro hmem
      have hsub := randomSample_mem pick k _ rest hrest _ hmem
      rw [← hnd.erase_get ⟨pick (k + 1) % pop.length, hidx⟩] at hsub
      exact hnd.not_mem_erase hsub
    · exact absurd h (by simp)

theorem passwordPopulation_length : passwordPopulation.length = 57 := by decide

theorem passwordPopulation_nodup : passwordPopulation.Nodup := by decide

theorem passwordPopulation_no_dollar : ∀ c ∈ passwordPopulation, c ≠ '$' := by decide

/-- Properties of `genpassword pick L` for feasible `L`. -/
theorem genpassword_spec (pick : Nat → Nat) (L : Nat) (hL : L ≤ 57) :
    ∃ s, genpassword pick L = some s ∧ s.length = L ∧ s.toList.Nodup ∧
      ∀ c ∈ s.toList, c ∈ passwordPopulation := by
  obtain ⟨l, hl⟩ := randomSample_isSome pick L passwordPopulation
    (by rw [passwordPopulation_length]; exact hL)
  refine ⟨String.mk l, ?_, ?_, ?_, ?_⟩
  · simp [genpassword, hl]
  · show l.length = L
    exact randomSample_some_length pick L _ l hl
  · show l.Nodup
    exact randomSample_nodup pick L _ l passwordPopulation_nodup hl
  · show ∀ c ∈ l, c ∈ passwordPopulation
    exact randomSample_mem pick L _ l hl

/-- A string with no `$` character cannot contain the generation token. -/
theorem searchGenpassToken_no_dollar :
    ∀ l : List Char, (∀ c ∈ l, c ≠ '$') → searchGenpassToken l = false := by
  intro l
  induction l with
  | nil => intro _; rfl
  | cons c rest ih =>
    intro h
    have hc : (c == '$') = false := by
      have := h c (List.mem_cons_self c rest)
      simp [this]
    rw [searchGenpassToken, hc]
    rw [Bool.false_and, Bool.false_or]
    exact ih (fun x hx => h x (List.mem_cons_of_mem c hx))

/-- A freshly generated password never matches the token pattern again. -/
theorem genpassword_no_token (s : String)
    (h : ∀ c ∈ s.toList, c ∈ passwordPopulation) :
    matchesGenpassToken s = false := by
  unfold matchesGenpassToken
  exact searchGenpassToken_no_dollar _ (fun c hc => passwordPopulation_no_dollar c (h c hc))

/-- Materializing a matching value yields an 8-character password. -/
theorem materializeValue_of_match (pick : Nat → Nat) (v : String)
    (hm : matchesGenpassToken v = true) :
    ∃ s, materializeValue pick v = some s ∧ s.length = 8 ∧ s.toList.Nodup ∧
      ∀ c ∈ s.toList, c ∈ passwordPopulation := by
  obtain ⟨s, hs, hlen, hnd, hmem⟩ := genpassword_spec pick 8 (by omega)
  refine ⟨s, ?_, hlen, hnd, hmem⟩
  unfold materializeValue genpassStep
  rw [hm]
  simp only [if_true, hs, Option.some_bind]
  rw [genpassword_no_token s hmem]
  simp [hs]

/-- Materializing a non-matching value is the identity. -/
theorem materializeValue_of_no_match (pick : Nat → Nat) (v : String)
    (hm : matchesGenpassToken v = false) :
    materializeValue pick v = some v := by
  unfold materializeValue genpassStep
  rw [hm]
  simp [hm]

/-- Per-entry soundness of the rewriting pass: positionwise, every output
entry is the materialization of the input entry at the same index. -/
theorem stackcreateParams_sound (pick : Nat → Nat) :
    ∀ (ps qs : List ParamEntry), stackcreateParams pick ps = some qs →
      qs.length = ps.length ∧
      ∀ (i : Nat) (hp : i < ps.length) (hq : i < qs.length),
        materializeEntry pick (ps.get ⟨i, hp⟩) = some (qs.get ⟨i, hq⟩) := by
  intro ps
  induction ps with
  | nil =>
    intro qs h
    simp only [stackcreateParams, Option.some.injEq] at h
    subst h
    exact ⟨rfl, fun i hp _ => absurd hp (by simp)⟩
  | cons e rest ih =>
    intro qs h
    rw [stackcreateParams] at h
    cases he : materializeEntry pick e with
    | none => rw [he] at h; exact absurd h (by simp)
    | some e' =>
      cases hr : stackcreateParams pick rest with
      | none => rw [he, hr] at h; exact absurd h (by simp)
      | some rest' =>
        rw [he, hr] at h
        simp only [Option.some.injEq] at h
        subst h
        obtain ⟨hlen, hidx⟩ := ih rest' hr
        refine ⟨by simp [hlen], ?_⟩
        intro i hp hq
        match i with
        | 0 => simpa using he
        | i + 1 =>
          simp only [List.get_cons_succ]
          exact hidx i (by simpa using hp) (by simpa using hq)

/-- Materialization never touches `ParameterKey`. -/
theorem materializeEntry_key (pick : Nat → Nat) (e e' : ParamEntry)
    (h : materializeEntry pick e = some e') :
    e'.ParameterKey = e.ParameterKey := by
  unfold materializeEntry at h
  rw [Option.map_eq_some'] at h
  obtain ⟨v, _, hv⟩ := h
  rw [← hv]

/-! ## Lemmas about the polling loop -/

theorem stackcheck_active (n rg : String) (res : DescribeResult) :
    (stackcheck n rg res).active = activeCount res := by
  cases res <;> rfl

theorem foldlCur_fst {α : Type} (w : α → Nat) :
    ∀ (l : List α) (c a : Nat),
      (l.foldl (fun acc p => let cur := acc.1 + w p; (cur, cur)) (c, a)).1 =
        c + (l.map w).sum := by
  intro l
  induction l with
  | nil => intro c a; simp
  | cons x xs ih =>
    intro c a
    simp only [List.foldl_cons, List.map_cons, List.sum_cons]
    rw [ih]
    omega

theorem foldlCur_snd {α : Type} (w : α → Nat) :
    ∀ (l : List α) (c a : Nat), l ≠ [] →
      (l.foldl (fun acc p => let cur := acc.1 + w p; (cur, cur)) (c, a)).2 =
        c + (l.map w).sum := by
  intro l
  induction l with
  | nil => intro c a h; exact absurd rfl h
  | cons x xs ih =>
    intro c a _
    simp only [List.foldl_cons, List.map_cons, List.sum_cons]
    cases xs with
    | nil => simp
    | cons y ys =>
      rw [ih _ _ (by simp)]
      omega

/-- With a nonempty tracking list, the `active_tests` value left behind by a
sweep is the total in-flight count of that sweep (independent of the previous
value). -/
theorem pollSweep_eq_sweepSum (describe : Nat → Nat → DescribeResult)
    (stackids : List (String × String)) (iter active0 : Nat) (hne : stackids ≠ []) :
    pollSweep describe stackids iter active0 = sweepSum describe stackids iter := by
  have hne' : stackids.enum ≠ [] := by
    intro h
    apply hne
    have := congrArg List.length h
    rw [List.enum_length] at this
    exact List.length_eq_zero.mp this
  unfold pollSweep sweepSum
  have h := foldlCur_snd (fun p => (stackcheck p.2.1 p.2.2 (describe p.1 iter)).active)
    stackids.enum 0 active0 hne'
  simp only [Nat.zero_add] at h
  exact h

/-- With an empty tracking list, a sweep leaves `active_tests` unchanged. -/
theorem pollSweep_nil (describe : Nat → Nat → DescribeResult) (iter active0 : Nat) :
    pollSweep describe [] iter active0 = active0 := rfl

theorem sweepSum_zero (describe : Nat → Nat → DescribeResult)
    (stackids : List (String × String)) (iter : Nat)
    (h : ∀ i, activeCount (describe i iter) = 0) :
    sweepSum describe stackids iter = 0 := by
  apply List.sum_eq_zero
  intro x hx
  rw [List.mem_map] at hx
  obtain ⟨p, _, hxw⟩ := hx
  rw [← hxw, stackcheck_active]
  exact h p.1

theorem getStackstatusAux_nil (describe : Nat → Nat → DescribeResult) :
    ∀ (fuel iter active : Nat), 0 < active →
      getStackstatusAux describe [] fuel iter active = none := by
  intro fuel
  induction fuel with
  | zero =>
    intro iter active h
    rw [getStackstatusAux]
    simp [h]
  | succ fuel ih =>
    intro iter active h
    rw [getStackstatusAux]
    rw [if_pos h]
    show getStackstatusAux describe [] fuel (iter + 1) (pollSweep describe [] iter active) = none
    rw [pollSweep_nil]
    exact ih _ _ h

/-- The loop can only exit at or after the iteration it is entered at. -/
theorem getStackstatusAux_ge (describe : Nat → Nat → DescribeResult)
    (stackids : List (String × String)) :
    ∀ (fuel iter active m : Nat),
      getStackstatusAux describe stackids fuel iter active = some m → iter ≤ m := by
  intro fuel
  induction fuel with
  | zero =>
    intro iter active m h
    rw [getStackstatusAux] at h
    split at h
    · exact absurd h (by simp)
    · simp only [Option.some.injEq] at h
      omega
  | succ fuel ih =>
    intro iter active m h
    rw [getStackstatusAux] at h
    split at h
    · have := ih _ _ _ h
      omega
    · simp only [Option.some.injEq] at h
      omega

/-- When the loop exits after at least one sweep, the last sweep counted zero
in-flight records. -/
theorem getStackstatusAux_exit_sweep (describe : Nat → Nat → DescribeResult)
    (stackids : List (String × String)) (hne : stackids ≠ []) :
    ∀ (fuel iter active m : Nat),
      getStackstatusAux describe stackids fuel iter active = some m → iter < m →
      sweepSum describe stackids (m - 1) = 0 := by
  intro fuel
  induction fuel with
  | zero =>
    intro iter active m h hlt
    rw [getStackstatusAux] at h
    split at h
    · exact absurd h (by simp)
    · simp only [Option.some.injEq] at h
      omega
  | succ fuel ih =>
    intro iter active m h hlt
    rw [getStackstatusAux] at h
    split at h
    · by_cases hm : iter + 1 < m
      · exact ih _ _ _ h hm
      · have hge : iter + 1 ≤ m := getStackstatusAux_ge describe stackids _ _ _ _ h
        have hmeq : m = iter + 1 := by omega
        subst hmeq
        cases fuel with
        | zero =>
          rw [getStackstatusAux] at h
          split at h
          · exact absurd h (by simp)
          · rename_i hnpos
            have hzero : pollSweep describe stackids iter active = 0 := by omega
            rw [pollSweep_eq_sweepSum describe stackids iter active hne] at hzero
            simpa using hzero
        | succ fuel' =>
          rw [getStackstatusAux] at h
          split at h
          · have := getStackstatusAux_ge describe stackids _ _ _ _ h
            omega
          · rename_i hnpos
            have hzero : pollSweep describe stackids iter active = 0 := by omega
            rw [pollSweep_eq_sweepSum describe stackids iter active hne] at hzero
            simpa using hzero
    · simp only [Option.some.injEq] at h
      omega

/-- Termination of the polling loop once all describe calls are terminal. -/
theorem getStackstatusAux_term (describe : Nat → Nat → DescribeResult)
    (stackids : List (String × String)) (hne : stackids ≠ []) (N : Nat)
    (hterm : ∀ i k, N ≤ k + 1 → activeCount (describe i k) = 0) :
    ∀ (fuel iter active : Nat), iter + fuel = N → (fuel = 0 → active = 0) →
      ∃ m, m ≤ N ∧ getStackstatusAux describe stackids fuel iter active = some m := by
  intro fuel
  induction fuel with
  | zero =>
    intro iter active hfi h0
    refine ⟨iter, by omega, ?_⟩
    rw [getStackstatusAux]
    rw [h0 rfl]
    rfl
  | succ fuel ih =>
    intro iter active hfi _
    by_cases hact : 0 < active
    · rw [getStackstatusAux, if_pos hact]
      show ∃ m, m ≤ N ∧ getStackstatusAux describe stackids fuel (iter + 1)
        (pollSweep describe stackids iter active) = some m
      apply ih (iter + 1) _ (by omega)
      intro hf0
      have hiter : N ≤ iter + 1 := by omega
      rw [pollSweep_eq_sweepSum describe stackids iter active hne]
      exact sweepSum_zero describe stackids iter (fun i => hterm i iter hiter)
    · refine ⟨iter, by omega, ?_⟩
      rw [getStackstatusAux, if_neg hact]

/-- C2 — counterexample: the status `UPDATE_IN_PROGRESS` contains
`"IN_PROGRESS"` but is classified as terminal (contributes 0), so
"non-terminal iff the status contains IN_PROGRESS" fails on the code. -/
theorem stackcheck_in_progress_cex :
    (stackcheck "tCaT-proj-test-a1b2" "us-east-1"
        (DescribeResult.ok "UPDATE_IN_PROGRESS")).active = 0 ∧
    containsInProgress "UPDATE_IN_PROGRESS" = true := by
  constructor
  · decide
  · decide

/-- C2 — amended: a tracked record counts as non-terminal (1) exactly when
its describe call succeeds with status literally `CREATE_IN_PROGRESS` or
`DELETE_IN_PROGRESS`; every other outcome (any other status string, or a
describe error) counts 0. -/
theorem stackcheck_active_classification (n rg : String) (res : DescribeResult) :
    (stackcheck n rg res).active =
      if res = DescribeResult.ok "CREATE_IN_PROGRESS" ∨
         res = DescribeResult.ok "DELETE_IN_PROGRESS" then 1 else 0 := by
  cases res <;> simp [stackcheck]

/-- C4 — a describe error during polling is absorbed by `stackcheck`: the
record's status becomes `USER_DELETED`, it contributes 0 to the active
count, no error propagates (the classification is total), and polling
continues: with one always-erring stack and one completed stack, the loop
finishes its sweep and exits after one iteration. -/
theorem stackcheck_user_deleted (n rg : String) :
    stackcheck n rg DescribeResult.err =
      { name := n, region := rg, status := "USER_DELETED", active := 0 } ∧
    get_stackstatus
      (fun i _ => if i = 0 then DescribeResult.err
                  else DescribeResult.ok "CREATE_COMPLETE")
      [("tCaT-a", "us-east-1"), ("tCaT-b", "us-west-2")] 1 = some 1 := by
  constructor
  · rfl
  · decide

/-- C3 — counterexample: the claim quantifies over every tracked set, but
with an empty tracked set (and describe calls that are always terminal, so
the claim's premise holds with N = 1) the loop does not terminate within
its N iterations — nor within 10. -/
theorem get_stackstatus_empty_cex :
    get_stackstatus (fun _ _ => DescribeResult.err) [] 1 = none ∧
    get_stackstatus (fun _ _ => DescribeResult.err) [] 10 = none := by
  constructor
  · decide
  · decide

/-- C3 — amended: for every **nonempty** tracked set whose describe calls
all return a terminal status from the N-th call on (N ≥ 1), the polling loop
terminates within N iterations, and the final sweep counted zero
non-terminal records. -/
theorem get_stackstatus_converges (describe : Nat → Nat → DescribeResult)
    (stackids : List (String × String)) (N : Nat) (hne : stackids ≠ [])
    (hN : 1 ≤ N) (hterm : ∀ i k, N ≤ k + 1 → activeCount (describe i k) = 0) :
    ∃ m, 1 ≤ m ∧ m ≤ N ∧ get_stackstatus describe stackids N = some m ∧
      sweepSum describe stackids (m - 1) = 0 := by
  obtain ⟨m, hmN, hsome⟩ :=
    getStackstatusAux_term describe stackids hne N hterm N 0 1 (by omega) (by omega)
  have h1 : 1 ≤ m := by
    obtain ⟨N', rfl⟩ : ∃ N', N = N' + 1 := ⟨N - 1, by omega⟩
    have hsome' := hsome
    rw [getStackstatusAux, if_pos (by omega : (0:Nat) < 1)] at hsome'
    have := getStackstatusAux_ge describe stackids _ _ _ _ hsome'
    omega
  exact ⟨m, h1, hmN, hsome,
    getStackstatusAux_exit_sweep describe stackids hne N 0 1 m hsome (by omega)⟩

/-- C3 — witness: one stack that is in progress on its first describe call
and complete from the second call on; with N = 2 the loop exits after
exactly its second iteration. -/
theorem get_stackstatus_converges_witness :
    ∃ m, 1 ≤ m ∧ m ≤ 2 ∧
      get_stackstatus
        (fun _ k => if 1 ≤ k then DescribeResult.ok "CREATE_COMPLETE"
                    else DescribeResult.ok "CREATE_IN_PROGRESS")
        [("tCaT-w", "eu-west-1")] 2 = some m ∧
      sweepSum
        (fun _ k => if 1 ≤ k then DescribeResult.ok "CREATE_COMPLETE"
                    else DescribeResult.ok "CREATE_IN_PROGRESS")
        [("tCaT-w", "eu-west-1")] (m - 1) = 0 :=
  get_stackstatus_converges
    (fun _ k => if 1 ≤ k then DescribeResult.ok "CREATE_COMPLETE"
                else DescribeResult.ok "CREATE_IN_PROGRESS")
    [("tCaT-w", "eu-west-1")] 2 (by simp) (by omega)
    (by
      intro i k hk
      have h1 : 1 ≤ k := by omega
      simp [activeCount, h1])

/-- C10 — with an empty tracked list, `active_tests` is initialized to 1 and
is only ever reassigned inside the per-stack loop body, which never runs;
the polling loop therefore never terminates, whatever the describe oracle
and however many iterations are unfolded. -/
theorem get_stackstatus_empty_never_terminates
    (describe : Nat → Nat → DescribeResult) (fuel : Nat) :
    get_stackstatus describe [] fuel = none :=
  getStackstatusAux_nil describe fuel 0 1 (by omega)

/-- C1 — counterexample: an entry requesting a 5-character password
(`$[alpha_genpass_5]`) is materialized to an 8-character value: the requested
length is parsed (and discarded) but the replacement is always
`genpassword(8)`. -/
theorem stackcreate_genpass_length_cex :
    matchesGenpassToken "$[alpha_genpass_5]" = true ∧
    requestedLength "$[alpha_genpass_5]" = 5 ∧
    stackcreateParams (fun _ => 0)
        [{ ParameterKey := "Password", ParameterValue := "$[alpha_genpass_5]" }] =
      some [{ ParameterKey := "Password", ParameterValue := "01234567" }] ∧
    ("01234567" : String).length = 8 ∧ (8 : Nat) ≠ 5 := by
  refine ⟨by decide, by decide, by decide, by decide, by decide⟩

/-- C1 — amended: for every parameter entry whose value matches the
generation token pattern, the materializer replaces the entire value with a
randomly generated string of exactly 8 characters, whatever length the token
requested. -/
theorem stackcreate_genpass_always_eight (pick : Nat → Nat) (ps qs : List ParamEntry)
    (h : stackcreateParams pick ps = some qs) (i : Nat)
    (hp : i < ps.length) (hq : i < qs.length)
    (hm : matchesGenpassToken (ps.get ⟨i, hp⟩).ParameterValue = true) :
    (qs.get ⟨i, hq⟩).ParameterValue.length = 8 := by
  have he := (stackcreateParams_sound pick ps qs h).2 i hp hq
  unfold materializeEntry at he
  rw [Option.map_eq_some'] at he
  obtain ⟨v, hv, hq'⟩ := he
  obtain ⟨s, hs, hlen, -, -⟩ := materializeValue_of_match pick _ hm
  rw [hv] at hs
  injection hs with hs
  rw [← hq', hs]
  exact hlen

/-- C1 — witness for the amended claim at a concrete document. -/
theorem stackcreate_genpass_always_eight_witness :
    (([{ ParameterKey := "DBPwd", ParameterValue := "01234567" }] : List ParamEntry).get
        ⟨0, Nat.zero_lt_one⟩).ParameterValue.length = 8 :=
  stackcreate_genpass_always_eight (fun _ => 0)
    [{ ParameterKey := "DBPwd", ParameterValue := "$[db_genpass_41]" }]
    [{ ParameterKey := "DBPwd", ParameterValue := "01234567" }]
    (by decide) 0 Nat.zero_lt_one Nat.zero_lt_one (by decide)

/-- C6 — counterexample: the sampling population has 57 characters, not 62 —
it misses `9`, `Z` and `x` (and `y`, `z`) because the source's ranges end one
short (`range(48,57)`, `range(65,90)`, `range(97,120)`); consequently a
requested length of 58 (≤ 62) already fails. -/
theorem genpassword_alphabet_cex :
    passwordPopulation.length = 57 ∧
    '9' ∉ passwordPopulation ∧ 'Z' ∉ passwordPopulation ∧ 'x' ∉ passwordPopulation ∧
    genpassword (fun _ => 0) 58 = none ∧ (58 : Nat) ≤ 62 := by
  refine ⟨by decide, by decide, by decide, by decide, by decide, by decide⟩

/-- C6 — amended: the password is sampled without replacement (no duplicate
characters) from the 57-character population `0`-`8`, `A`-`Y`, `a`-`w`, so
any requested length up to 57 succeeds with exactly that many characters,
and lengths above 57 raise. -/
theorem genpassword_sample_spec (pick : Nat → Nat) (L : Nat) :
    (L ≤ 57 →
      ∃ s, genpassword pick L = some s ∧ s.length = L ∧ s.toList.Nodup ∧
        ∀ c ∈ s.toList, c ∈ passwordPopulation) ∧
    (57 < L → genpassword pick L = none) := by
  constructor
  · intro hL
    exact genpassword_spec pick L hL
  · intro hL
    unfold genpassword
    rw [randomSample_none pick L passwordPopulation
      (by rw [passwordPopulation_length]; exact hL)]
    rfl

/-- C6 — witness for the amended claim at length 12. -/
theorem genpassword_sample_spec_witness :
    ∃ s, genpassword (fun _ => 0) 12 = some s ∧ s.length = 12 ∧ s.toList.Nodup ∧
      ∀ c ∈ s.toList, c ∈ passwordPopulation :=
  (genpassword_sample_spec (fun _ => 0) 12).1 (by omega)

/-- C8 — for entries whose value does not match the token pattern,
materialization is the identity: the key is always unchanged, a non-matching
entry is returned verbatim, and the output document has the same length with
every entry at its input position. -/
theorem materialize_identity_non_tokens (pick : Nat → Nat) (ps qs : List ParamEntry)
    (h : stackcreateParams pick ps = some qs) :
    qs.length = ps.length ∧
    ∀ (i : Nat) (hp : i < ps.length) (hq : i < qs.length),
      (qs.get ⟨i, hq⟩).ParameterKey = (ps.get ⟨i, hp⟩).ParameterKey ∧
      (matchesGenpassToken (ps.get ⟨i, hp⟩).ParameterValue = false →
        qs.get ⟨i, hq⟩ = ps.get ⟨i, hp⟩) := by
  obtain ⟨hlen, hidx⟩ := stackcreateParams_sound pick ps qs h
  refine ⟨hlen, ?_⟩
  intro i hp hq
  have he := hidx i hp hq
  constructor
  · exact materializeEntry_key pick _ _ he
  · intro hm
    have hval := materializeValue_of_no_match pick (ps.get ⟨i, hp⟩).ParameterValue hm
    unfold materializeEntry at he
    rw [hval] at he
    simp only [Option.map_some', Option.some.injEq] at he
    have : { ps.get ⟨i, hp⟩ with
        ParameterValue := (ps.get ⟨i, hp⟩).ParameterValue } = ps.get ⟨i, hp⟩ := rfl
    rw [this] at he
    exact he.symm

/-- C8 — witness at a concrete one-entry document with no token. -/
theorem materialize_identity_non_tokens_witness :
    ([{ ParameterKey := "KeyPairName", ParameterValue := "mykey" }] : List ParamEntry).length =
      ([{ ParameterKey := "KeyPairName", ParameterValue := "mykey" }] : List ParamEntry).length ∧
    ∀ (i : Nat)
      (hp : i < ([{ ParameterKey := "KeyPairName", ParameterValue := "mykey" }] : List ParamEntry).length)
      (hq : i < ([{ ParameterKey := "KeyPairName", ParameterValue := "mykey" }] : List ParamEntry).length),
      (([{ ParameterKey := "KeyPairName", ParameterValue := "mykey" }] : List ParamEntry).get
          ⟨i, hq⟩).ParameterKey =
        (([{ ParameterKey := "KeyPairName", ParameterValue := "mykey" }] : List ParamEntry).get
          ⟨i, hp⟩).ParameterKey ∧
      (matchesGenpassToken
          (([{ ParameterKey := "KeyPairName", ParameterValue := "mykey" }] : List ParamEntry).get
            ⟨i, hp⟩).ParameterValue = false →
        ([{ ParameterKey := "KeyPairName", ParameterValue := "mykey" }] : List ParamEntry).get
            ⟨i, hq⟩ =
          ([{ ParameterKey := "KeyPairName", ParameterValue := "mykey" }] : List ParamEntry).get
            ⟨i, hp⟩) :=
  materialize_identity_non_tokens (fun _ => 0)
    [{ ParameterKey := "KeyPairName", ParameterValue := "mykey" }]
    [{ ParameterKey := "KeyPairName", ParameterValue := "mykey" }] (by decide)

/-- C5 — evaluation at the failing input: after a first `get` with explicit
credentials (access key `AKIA1`) and a second `get` whose access key differs
(`AKIA2`), the cached session is *not* rebuilt — the state still holds the
original session (id 0, key `AKIA1`), exactly one session was ever
constructed (fresh counter 3 = 1 session + 2 clients), and the returned
client was built from that stale session.  The idempotence half of the claim
does hold: two identical credential-less `get` calls return the same cached
client instance. -/
theorem clientfactory_cred_change_keeps_session :
    (twoGetsCredChange.map (fun r => sessionAt r.1 "default_role" "us-east-1") =
      some (some { sid := 0, access_key := some "AKIA1" })) ∧
    (twoGetsCredChange.map (fun r => r.1.fresh) = some 3) ∧
    (twoGetsCredChange.map (fun r => r.2.2.session_sid) = some 0) ∧
    (twoGetsCredChange.map (fun r => decide (r.2.2 = r.2.1)) = some false) ∧
    (twoGetsNoCreds.map (fun r => decide (r.2.2 = r.2.1)) = some true) := by
  refine ⟨by decide, by decide, by decide, by decide, by decide⟩

/-- Behaviour of the retry shell shared by `_create_session` and
`_create_client`: success at 0-indexed attempt `k < 4` takes `k + 1`
attempts with sleeps `5·1², …, 5·k²` between them; four failures exhaust the
attempts, having slept `5, 20, 45`, and re-raise. -/
theorem retryConstruct_spec {α : Type} (make : Nat → Option α) :
    (∀ k, k < 4 → (∀ j, j < k → make j = none) → ∀ v, make k = some v →
      retryConstruct make 0 4 =
        (k + 1, (List.range k).map (fun i => 5 * (i + 1) ^ 2), some v)) ∧
    ((∀ j, j < 4 → make j = none) →
      retryConstruct make 0 4 = (4, [5, 20, 45], none)) := by
  constructor
  · intro k hk hfail v hv
    interval_cases k
    · simp [retryConstruct, hv]
    · have h0 := hfail 0 (by omega)
      simp [retryConstruct, h0, hv, List.range_succ]
    · have h0 := hfail 0 (by omega)
      have h1 := hfail 1 (by omega)
      simp [retryConstruct, h0, h1, hv, List.range_succ]
    · have h0 := hfail 0 (by omega)
      have h1 := hfail 1 (by omega)
      have h2 := hfail 2 (by omega)
      simp [retryConstruct, h0, h1, h2, hv, List.range_succ]
  · intro hfail
    have h0 := hfail 0 (by omega)
    have h1 := hfail 1 (by omega)
    have h2 := hfail 2 (by omega)
    have h3 := hfail 3 (by omega)
    simp [retryConstruct, h0, h1, h2, h3]

/-- C7 — session and client construction are attempted at most 4 times:
success at attempt `k + 1 ≤ 4` is preceded by sleeps `5·1², …, 5·k²` (one
after each of the `k` failures), and a fourth consecutive failure propagates
the error without a further sleep or retry. -/
theorem retry_backoff_spec (make : Nat → Option Session) (makec : Nat → Option BotoClient) :
    (∀ k, k < 4 → (∀ j, j < k → make j = none) → ∀ v, make k = some v →
      create_session_with_retries make =
        (k + 1, (List.range k).map (fun i => 5 * (i + 1) ^ 2), some v)) ∧
    ((∀ j, j < 4 → make j = none) →
      create_session_with_retries make = (4, [5, 20, 45], none)) ∧
    (∀ k, k < 4 → (∀ j, j < k → makec j = none) → ∀ v, makec k = some v →
      create_client_with_retries makec =
        (k + 1, (List.range k).map (fun i => 5 * (i + 1) ^ 2), some v)) ∧
    ((∀ j, j < 4 → makec j = none) →
      create_client_with_retries makec = (4, [5, 20, 45], none)) :=
  ⟨(retryConstruct_spec make).1, (retryConstruct_spec make).2,
   (retryConstruct_spec makec).1, (retryConstruct_spec makec).2⟩

/-- C7 — witness: a session construction that fails once then succeeds takes
2 attempts with a single 5-second sleep; a client construction that always
fails stops after 4 attempts with sleeps 5, 20, 45 and propagates. -/
theorem retry_backoff_spec_witness :
    create_session_with_retries
        (fun j => if j = 0 then none else some { sid := 7, access_key := none }) =
      (2, (List.range 1).map (fun i => 5 * (i + 1) ^ 2),
        some { sid := 7, access_key := none }) ∧
    create_client_with_retries (fun _ => none) = (4, [5, 20, 45], none) :=
  ⟨(retry_backoff_spec (fun j => if j = 0 then none else some { sid := 7, access_key := none })
      (fun _ => none)).1 1 (by omega) (by intro j hj; interval_cases j; rfl) _ rfl,
   (retry_backoff_spec (fun j => if j = 0 then none else some { sid := 7, access_key := none })
      (fun _ => none)).2.2.2 (fun _ _ => rfl)⟩

/-- C9 — counterexample: the claim as stated quantifies over every command
line supplying both conflicting auth flags, but supplying the profile flag,
an explicit key flag *and* `--example_yaml` satisfies that antecedent while
the `args.example_yaml` check (taskcat.py 626-629) runs before the conflict
check (634-640): the process prints the example config and exits 0 — no
configuration error, and not a non-zero exit. -/
theorem auth_conflict_example_yaml_cex :
    mainEvents
        { config_yml := none, boto_profile := some "dev",
          aws_access_key := some "AKIAEXAMPLE", aws_secret_key := none,
          example_yaml := true, verbose := false, no_cli_arguments := false } =
      [RunEvent.printedExampleYaml, RunEvent.exited 0] ∧
    RunEvent.exited 2 ∉ mainEvents
        { config_yml := none, boto_profile := some "dev",
          aws_access_key := some "AKIAEXAMPLE", aws_secret_key := none,
          example_yaml := true, verbose := false, no_cli_arguments := false } ∧
    RunEvent.exited 0 ∈ mainEvents
        { config_yml := none, boto_profile := some "dev",
          aws_access_key := some "AKIAEXAMPLE", aws_secret_key := none,
          example_yaml := true, verbose := false, no_cli_arguments := false } := by
  refine ⟨by decide, by decide, by decide⟩

/-- C9 — amended: supplying the profile flag together with either explicit
key flag on a run that is not the print-example action (and that gave some
arguments, which the flags imply) makes `parser.error` fire during
`interface`: the process emits only a configuration-error exit with status 2
(non-zero), and in particular no network call is ever made. -/
theorem auth_conflict_exits_before_network (a : CliArgs)
    (hp : a.boto_profile.isSome = true)
    (hk : a.aws_access_key.isSome = true ∨ a.aws_secret_key.isSome = true)
    (hn : a.no_cli_arguments = false)
    (he : a.example_yaml = false) :
    mainEvents a = [RunEvent.exited 2] ∧
    (∀ s, RunEvent.networkCall s ∉ mainEvents a) ∧ (2 : Nat) ≠ 0 := by
  have hie : interfaceEvents a = [RunEvent.exited 2] := by
    unfold interfaceEvents
    rw [if_neg (by simp [hn]), if_neg (by simp [he]),
      if_pos (by exact ⟨hp, by rcases hk with hk | hk; exacts [Or.inl hk, Or.inr hk]⟩)]
  refine ⟨?_, ?_, by omega⟩
  · unfold mainEvents
    rw [hie]
    rfl
  · intro s
    unfold mainEvents
    rw [hie]
    simp [exitsRun]

/-- C9 — witness: a concrete flag set with both `-P` and `-A` supplied. -/
theorem auth_conflict_witness :
    mainEvents
        { config_yml := some "config.yml", boto_profile := some "dev",
          aws_access_key := some "AKIAEXAMPLE", aws_secret_key := none,
          example_yaml := false, verbose := false, no_cli_arguments := false } =
      [RunEvent.exited 2] ∧
    (∀ s, RunEvent.networkCall s ∉ mainEvents
        { config_yml := some "config.yml", boto_profile := some "dev",
          aws_access_key := some "AKIAEXAMPLE", aws_secret_key := none,
          example_yaml := false, verbose := false, no_cli_arguments := false }) ∧
    (2 : Nat) ≠ 0 :=
  auth_conflict_exits_before_network _ rfl (Or.inl rfl) rfl rfl

end Taskcat
